import Mathlib

/-!
# Smart ATS Resume Tracker — verification of the spec against `app.py`

This file shallowly embeds the core pipeline of the Streamlit application
`app.py` (text extraction gate, resume format checker, prompt builder, model
call gate, JSON result interpreter, eligibility band chain, gauge color chain,
and the submit-handler control flow) as executable Lean definitions, and proves
or refutes the specification's claims about them.

Conventions of the embedding:
* Python strings are Lean `String`s; character-level operations are written on
  `List Char` so that the kernel can evaluate them on concrete witnesses.
* External effects (the PDF library, the generative-model endpoint) are
  modelled as oracle inputs: the submit handler takes the value the external
  call would have produced (`Option String`, `none` = the call failed and an
  error message was shown, mirroring the `except` blocks that return `None`).
* Python exceptions that the handler does not catch are modelled with an
  explicit `PyExc` error type; an uncaught exception surfaces as a `crash`
  outcome, distinct from the gracefully reported error outcomes.
* Machine integers do not occur: all Python ints involved are small and exact.
-/

/-- ASCII lower-casing of one character, as Python `str.lower` acts on the
ASCII range (the keyword search in `check_resume_format` only involves ASCII
letters, so the embedding restricts lower-casing to ASCII). -/
def lowerChar (c : Char) : Char :=
  if 'A' ≤ c ∧ c ≤ 'Z' then Char.ofNat (c.toNat + 32) else c

/-- Lower-case a string character-wise (embeds `resume_text.lower()`). -/
def lowerStr (s : String) : String :=
  ⟨s.data.map lowerChar⟩

/-- Accumulator-style splitting of a character list into maximal runs of
non-whitespace characters. Embeds Python `str.split()` with no separator
argument, which splits on runs of whitespace and never yields empty words. -/
def pyWordsAux : List Char → List Char → List (List Char)
  | [], [] => []
  | [], acc => [acc.reverse]
  | c :: rest, acc =>
    if c.isWhitespace then
      if acc = [] then pyWordsAux rest []
      else acc.reverse :: pyWordsAux rest []
    else pyWordsAux rest (c :: acc)

/-- The list of whitespace-separated words of a string: `resume_text.split()`. -/
def pyWords (s : String) : List (List Char) :=
  pyWordsAux s.data []

/-- Embeds `len(resume_text.split())`: the word count used by the format checker. -/
def wordCount (s : String) : Nat :=
  (pyWords s).length

/-- Whether `pat` occurs as a contiguous sublist of `s`; embeds the Python
substring test `pat in s` on the character lists of the two strings. -/
def subOf (pat : List Char) : List Char → Bool
  | [] => pat = []
  | c :: rest => decide (pat <+: (c :: rest)) || subOf pat rest

/-- Python `keyword in resume_text` as a string-level substring test. -/
def strIn (pat s : String) : Bool :=
  subOf pat.data s.data

/-- The first feedback message of `check_resume_format` (word count below
200). -/
def tooShortMsg : String :=
  "Your resume text is too short. Consider adding more details."

/-- The second feedback message of `check_resume_format` (no standard-section
keyword found). -/
def missingSectionsMsg : String :=
  "Missing standard sections like Skills, Experience, or Education."

/-- The fixed keyword set searched for (case-insensitively) by the format
checker. -/
def sectionKeywords : List String :=
  ["skills", "experience", "education"]

/-- Embeds `check_resume_format` from `app.py`: starts with
`ats_friendly = True` and empty `feedback`; if the word count is below 200 it
clears the flag and appends the too-short message; if none of the keywords
occurs in the lower-cased text it clears the flag and appends the
missing-sections message; returns the flag and the feedback list. -/
def check_resume_format (resume_text : String) : Bool × List String :=
  let short := wordCount resume_text < 200
  let noSection := ¬ (sectionKeywords.any fun k => strIn k (lowerStr resume_text))
  let ats1 : Bool := true
  let fb1 : List String := []
  let ats2 := if short then false else ats1
  let fb2 := if short then fb1 ++ [tooShortMsg] else fb1
  let ats3 := if noSection then false else ats2
  let fb3 := if noSection then fb2 ++ [missingSectionsMsg] else fb2
  (ats3, fb3)

/-- The prompt-construction step of `evaluate_resume` in `app.py`: Python
`if jd_text:` is string truthiness, i.e. the job description is used exactly
when it is non-empty. -/
def buildPrompt (jd_text resume_text : String) : String :=
  if jd_text ≠ "" then
    "Job Description: " ++ jd_text ++ "\n" ++ "Resume Text: " ++ resume_text
  else
    "Resume Text: " ++ resume_text

/-- The four eligibility labels written by the submit handler's band chain. -/
inductive EligBand where
  | notEligible
  | needsUpdate
  | goodNeedsUpdate
  | perfectFit
deriving DecidableEq, Repr

/-- Embeds the `match_percentage` band chain of the submit handler
(`if 0 <= match_percentage <= 30: ... elif 31 <= ... <= 60: ... elif
61 <= ... <= 80: ... elif 81 <= ... <= 100: ...`). The chain has no `else`
branch, so percentages outside 0–100 select no band (`none`). -/
def eligibilityBand (p : Int) : Option EligBand :=
  if 0 ≤ p ∧ p ≤ 30 then some .notEligible
  else if 31 ≤ p ∧ p ≤ 60 then some .needsUpdate
  else if 61 ≤ p ∧ p ≤ 80 then some .goodNeedsUpdate
  else if 81 ≤ p ∧ p ≤ 100 then some .perfectFit
  else none

/-- The five gauge colors of `circular_progress_bar`. -/
inductive GaugeColor where
  | darkred
  | lightcoral
  | orange
  | lightgreen
  | darkgreen
deriving DecidableEq, Repr

/-- Embeds the color chain of `circular_progress_bar` applied to the computed
percentage (`if percentage <= 40: "darkred" elif 41 <= percentage <= 60:
"lightcoral" elif 61 <= ... <= 80: "orange" elif 81 <= ... <= 90:
"lightgreen" else: "darkgreen"`). Both call sites pass an integer value with
`max_value = 100`; for every integer 0–100 the float expression
`value / max_value * 100` compares with the integer band bounds exactly as the
integer does (the only inexact cases, 7, 14, 28, 29, 55–58, lie strictly
inside a band), so an integer percentage is a faithful model of the call. -/
def gaugeColor (p : Int) : GaugeColor :=
  if p ≤ 40 then .darkred
  else if 41 ≤ p ∧ p ≤ 60 then .lightcoral
  else if 61 ≤ p ∧ p ≤ 80 then .orange
  else if 81 ≤ p ∧ p ≤ 90 then .lightgreen
  else .darkgreen

/-! ## JSON values and the `json.loads` embedding

The submit handler parses the model response with `json.loads` and catches
only `json.JSONDecodeError`. The embedding models the JSON fragment the
application actually exchanges: null, booleans, integers, strings, arrays and
objects (floating-point numbers, unicode escapes and duplicate object keys are
outside the modelled fragment). -/

/-- Python values produced by `json.loads` on the modelled fragment. -/
inductive Json where
  | null
  | bool (b : Bool)
  | num (n : Int)
  | str (s : String)
  | arr (xs : List Json)
  | obj (kvs : List (String × Json))

/-- The opening curly bracket character (written by code point to keep string
and character literals bracket-free). -/
def lbrace : Char := Char.ofNat 123

/-- The closing curly bracket character. -/
def rbrace : Char := Char.ofNat 125

/-- JSON insignificant whitespace. -/
def jsonWs (c : Char) : Bool :=
  c = ' ' || c = '\t' || c = '\n' || c = '\r'

/-- Drop leading JSON whitespace. -/
def skipWs : List Char → List Char
  | [] => []
  | c :: rest => if jsonWs c then skipWs rest else c :: rest

/-- Boolean prefix test on character lists. -/
def isPre : List Char → List Char → Bool
  | [], _ => true
  | _ :: _, [] => false
  | a :: as, b :: bs => a = b && isPre as bs

/-- Error message used when the parsing fuel is exhausted; the top-level entry
point supplies enough fuel that this cannot happen for any input. -/
def fuelMsg : String := "parser fuel exhausted"

/-- Parse the body of a JSON string after the opening quote, handling the
basic escapes; returns the string and the remaining input. -/
def parseStringBody : Nat → List Char → List Char → Except String (String × List Char)
  | 0, _, _ => .error fuelMsg
  | _ + 1, [], _ => .error "unterminated string"
  | fuel + 1, c :: rest, acc =>
    if c = '"' then .ok (⟨acc.reverse⟩, rest)
    else if c = '\\' then
      match rest with
      | [] => .error "unterminated string escape"
      | e :: rest2 =>
        if e = '"' then parseStringBody fuel rest2 ('"' :: acc)
        else if e = '\\' then parseStringBody fuel rest2 ('\\' :: acc)
        else if e = '/' then parseStringBody fuel rest2 ('/' :: acc)
        else if e = 'n' then parseStringBody fuel rest2 ('\n' :: acc)
        else if e = 't' then parseStringBody fuel rest2 ('\t' :: acc)
        else if e = 'r' then parseStringBody fuel rest2 ('\r' :: acc)
        else .error "unsupported string escape"
    else parseStringBody fuel rest (c :: acc)

/-- Value of a nonempty list of decimal digits. -/
def digitsToNat (ds : List Char) : Nat :=
  ds.foldl (fun n c => 10 * n + (c.toNat - 48)) 0

/-- Split off the longest leading run of decimal digits. -/
def takeDigits : List Char → List Char × List Char
  | [] => ([], [])
  | c :: rest =>
    if c.isDigit then
      let p := takeDigits rest
      (c :: p.1, p.2)
    else ([], c :: rest)

/-- A number continuing with a fraction or exponent is outside the modelled
integer fragment. -/
def badNumTail : List Char → Bool
  | [] => false
  | c :: _ => c = '.' || c = 'e' || c = 'E'

mutual

/-- Parse one JSON value (fuel-indexed recursion; each recursive layer
consumes at least one input character, so `2 * length + 4` units of fuel at
the top level always suffice). -/
def parseValue : Nat → List Char → Except String (Json × List Char)
  | 0, _ => .error fuelMsg
  | fuel + 1, cs =>
    match skipWs cs with
    | [] => .error "expecting value"
    | c :: rest =>
      if c = '"' then
        match parseStringBody (rest.length + 1) rest [] with
        | .error e => .error e
        | .ok (s, r) => .ok (.str s, r)
      else if c = '[' then
        match skipWs rest with
        | ']' :: r2 => .ok (.arr [], r2)
        | r2 =>
          match parseArrayItems fuel r2 with
          | .error e => .error e
          | .ok (xs, r3) => .ok (.arr xs, r3)
      else if c = lbrace then
        match skipWs rest with
        | [] => .error "unterminated object"
        | d :: r2 =>
          if d = rbrace then .ok (.obj [], r2)
          else
            match parseObjItems fuel (d :: r2) with
            | .error e => .error e
            | .ok (kvs, r3) => .ok (.obj kvs, r3)
      else if c = '-' then
        match takeDigits rest with
        | ([], _) => .error "expecting number"
        | (ds, r2) =>
          if badNumTail r2 then .error "unsupported number form"
          else .ok (.num (-(digitsToNat ds : Int)), r2)
      else if c.isDigit then
        match takeDigits (c :: rest) with
        | (ds, r2) =>
          if badNumTail r2 then .error "unsupported number form"
          else .ok (.num (digitsToNat ds : Int), r2)
      else if isPre ['t', 'r', 'u', 'e'] (c :: rest) then
        .ok (.bool true, (c :: rest).drop 4)
      else if isPre ['f', 'a', 'l', 's', 'e'] (c :: rest) then
        .ok (.bool false, (c :: rest).drop 5)
      else if isPre ['n', 'u', 'l', 'l'] (c :: rest) then
        .ok (.null, (c :: rest).drop 4)
      else .error "expecting value"

/-- Parse the items of a nonempty JSON array up to and including the closing
bracket. -/
def parseArrayItems : Nat → List Char → Except String (List Json × List Char)
  | 0, _ => .error fuelMsg
  | fuel + 1, cs =>
    match parseValue fuel cs with
    | .error e => .error e
    | .ok (v, r1) =>
      match skipWs r1 with
      | ',' :: r2 =>
        match parseArrayItems fuel r2 with
        | .error e => .error e
        | .ok (vs, r3) => .ok (v :: vs, r3)
      | ']' :: r2 => .ok ([v], r2)
      | _ => .error "expecting comma or end of array"

/-- Parse the members of a nonempty JSON object up to and including the
closing bracket. -/
def parseObjItems : Nat → List Char → Except String (List (String × Json) × List Char)
  | 0, _ => .error fuelMsg
  | fuel + 1, cs =>
    match skipWs cs with
    | '"' :: r1 =>
      match parseStringBody (r1.length + 1) r1 [] with
      | .error e => .error e
      | .ok (key, r2) =>
        match skipWs r2 with
        | ':' :: r3 =>
          match parseValue fuel r3 with
          | .error e => .error e
          | .ok (v, r4) =>
            match skipWs r4 with
            | [] => .error "unterminated object"
            | c :: r5 =>
              if c = ',' then
                match parseObjItems fuel r5 with
                | .error e => .error e
                | .ok (kvs, r6) => .ok ((key, v) :: kvs, r6)
              else if c = rbrace then .ok ([(key, v)], r5)
              else .error "expecting comma or end of object"
        | _ => .error "expecting colon"
    | _ => .error "expecting property name"

end

/-- Embeds `json.loads` applied to the raw model response: parse one value,
then require only whitespace to remain. An `.error` result corresponds to a
`json.JSONDecodeError` being raised. -/
def json_loads (s : String) : Except String Json :=
  match parseValue (2 * s.length + 4) s.data with
  | .error e => .error e
  | .ok (v, rest) =>
    match skipWs rest with
    | [] => .ok v
    | _ => .error "extra data"

/-! ## Python operations used by the submit handler on parsed values

The submit handler is dynamically typed: only `json.JSONDecodeError` is
caught, so any other exception raised while the parsed value is consumed
propagates out of the handler. Each operation is therefore modelled in
`Except PyExc`. -/

/-- Python exceptions that the submit handler can raise but does not catch. -/
inductive PyExc where
  | attributeError (msg : String)
  | valueError (msg : String)
  | typeError (msg : String)
deriving DecidableEq, Repr

/-- Embeds `response_data.get(key, default)`: only dictionaries have a `get`
attribute; any other value raises `AttributeError`. Lookup takes the first
matching key (the parser produces the members in input order). -/
def pyDictGet (v : Json) (key : String) (dflt : Json) : Except PyExc Json :=
  match v with
  | .obj kvs => .ok ((kvs.lookup key).getD dflt)
  | _ => .error (.attributeError "object has no attribute get")

/-- Embeds the handler's `.replace("%", "")` call: only strings have a
`replace` attribute; on a string it removes every occurrence of the
one-character pattern. -/
def pyReplacePctEmpty (v : Json) : Except PyExc Json :=
  match v with
  | .str s => .ok (.str ⟨s.data.filter (· != '%')⟩)
  | _ => .error (.attributeError "object has no attribute replace")

/-- Python whitespace stripped by `int(str)`. -/
def isPyWs (c : Char) : Bool :=
  c = ' ' || c = '\t' || c = '\n' || c = '\r' || c = '\x0B' || c = '\x0C'

/-- Strip whitespace from both ends of a character list. -/
def trimWs (cs : List Char) : List Char :=
  ((cs.dropWhile isPyWs).reverse.dropWhile isPyWs).reverse

/-- An optionally signed nonempty run of decimal digits, the core of a Python
integer literal accepted by `int(str)` (numeric-literal underscores are
outside the modelled fragment). -/
def intLitCore (ds : List Char) : Option Int :=
  match ds with
  | [] => none
  | d :: rest =>
    if d = '-' then
      if rest.all Char.isDigit ∧ rest ≠ [] then some (-(digitsToNat rest : Int)) else none
    else if d = '+' then
      if rest.all Char.isDigit ∧ rest ≠ [] then some (digitsToNat rest : Int) else none
    else if (d :: rest).all Char.isDigit then some (digitsToNat (d :: rest) : Int)
    else none

/-- The value `int(s)` gives to a string, when it does not raise
`ValueError`: surrounding whitespace is ignored around an optionally signed
digit run. -/
def pyIntOfStrChars (cs : List Char) : Option Int :=
  intLitCore (trimWs cs)

/-- Embeds the built-in `int(x)` on parsed JSON values. -/
def pyInt (v : Json) : Except PyExc Int :=
  match v with
  | .str s =>
    match pyIntOfStrChars s.data with
    | some n => .ok n
    | none => .error (.valueError "invalid literal for int with base 10")
  | .num n => .ok n
  | .bool b => .ok (if b then 1 else 0)
  | _ => .error (.typeError "int argument must be a string or a number")

/-- Python truthiness of a parsed JSON value (`if missing_keywords:`). -/
def pyTruthy : Json → Bool
  | .null => false
  | .bool b => b
  | .num n => n != 0
  | .str s => s != ""
  | .arr xs => !xs.isEmpty
  | .obj kvs => !kvs.isEmpty

/-- When every element of a list of parsed values is a string, the list of
those strings. -/
def allStrs : List Json → Option (List String)
  | [] => some []
  | .str s :: rest => (allStrs rest).map (s :: ·)
  | _ :: _ => none

/-- Embeds `", ".join(x)`: joining a list requires every item to be a string;
joining a string iterates its characters; joining a dictionary iterates its
keys; any non-iterable argument raises `TypeError`. -/
def pyJoinCommaSpace : Json → Except PyExc String
  | .arr xs =>
    match allStrs xs with
    | some ss => .ok (String.intercalate ", " ss)
    | none => .error (.typeError "sequence item expected str instance")
  | .str s => .ok (String.intercalate ", " (s.data.map fun c => ⟨[c]⟩))
  | .obj kvs => .ok (String.intercalate ", " (kvs.map (·.1)))
  | _ => .error (.typeError "can only join an iterable")

/-! ## The result interpreter (submit handler, lines 186–238) -/

/-- The percentage extraction on the job-description path:
`int(response_data.get("JD Match", "0").replace("%", ""))`. -/
def jdMatchPercent (response_data : Json) : Except PyExc Int := do
  let v ← pyDictGet response_data "JD Match" (.str "0")
  let v2 ← pyReplacePctEmpty v
  pyInt v2

/-- The percentage extraction on the no-job-description path:
`int(response_data.get("ATS Score", "0").replace("%", ""))`. -/
def atsScoreVal (response_data : Json) : Except PyExc Int := do
  let v ← pyDictGet response_data "ATS Score" (.str "0")
  let v2 ← pyReplacePctEmpty v
  pyInt v2

/-- What the handler renders on the job-description path: the parsed match
percentage, the gauge color drawn for it, the selected eligibility band
(`none` when the percentage misses every band) and the rendered
missing-keywords line. -/
structure JdReport where
  matchPercentage : Int
  gauge : GaugeColor
  band : Option EligBand
  missingKeywordsText : String
deriving DecidableEq, Repr

/-- The job-description branch of the handler after a successful
`json.loads`: parse the percentage, draw the gauge, run the band chain, then
render the missing keywords (joined when the list is truthy, a fixed message
otherwise). -/
def interpretJd (response_data : Json) : Except PyExc JdReport := do
  let p ← jdMatchPercent response_data
  let mk ← pyDictGet response_data "MissingKeywords" (.arr [])
  let mkText ←
    if pyTruthy mk then pyJoinCommaSpace mk
    else pure "No keywords are missing. Great job!"
  pure ⟨p, gaugeColor p, eligibilityBand p, mkText⟩

/-- What the handler renders on the no-job-description path. The suggestion
and conclusion fields are written with `st.write`, which accepts any value,
so they stay raw parsed values. -/
structure AtsReport where
  atsScore : Int
  gauge : GaugeColor
  strongPointsText : String
  suggestions : Json
  conclusion : Json

/-- The no-job-description branch of the handler after a successful
`json.loads`. -/
def interpretAts (response_data : Json) : Except PyExc AtsReport := do
  let sc ← atsScoreVal response_data
  let sp ← pyDictGet response_data "StrongPoints" (.arr [])
  let spText ←
    if pyTruthy sp then pyJoinCommaSpace sp
    else pure "No strong points identified."
  let sug ← pyDictGet response_data "Suggestions" (.str "No suggestions provided.")
  let conc ← pyDictGet response_data "Conclusion" (.str "No conclusion provided.")
  pure ⟨sc, gaugeColor sc, spText, sug, conc⟩

/-! ## The submit handler control flow (lines 175–240) -/

/-- Everything the handler can end in. `parseFailed` is the caught
`json.JSONDecodeError` branch (`st.error("Failed to parse ...")`); `crash` is
an exception the handler does not catch. -/
inductive Outcome where
  | noUpload
  | crash (e : PyExc)
  | formatRejected (reasons : List String)
  | modelFailed
  | parseFailed (msg : String)
  | jdResult (r : JdReport)
  | atsResult (r : AtsReport)

/-- The `try`/`except json.JSONDecodeError` region of the handler applied to
a truthy raw response: parse failures are reported, the interpreting branch
is chosen by the truthiness of the job description, and interpreter
exceptions escape uncaught. -/
def runInterpreter (jd raw : String) : Outcome :=
  match json_loads raw with
  | .error e => .parseFailed e
  | .ok response_data =>
    if jd ≠ "" then
      match interpretJd response_data with
      | .error exc => .crash exc
      | .ok r => .jdResult r
    else
      match interpretAts response_data with
      | .error exc => .crash exc
      | .ok r => .atsResult r

/-- The uploaded file as the submit handler sees it. -/
structure UploadedFile where
  size : Nat
  name : String
deriving DecidableEq, Repr

/-- The 2 MB limit of the upload preview stage. -/
def uploadSizeLimit : Nat := 2 * 1024 * 1024

/-- The upload preview stage (lines 143–158): an error is shown exactly when
the file exceeds 2 MB. This stage does not prevent the submit handler from
running. -/
def uploadStageSizeError (f : UploadedFile) : Bool :=
  uploadSizeLimit < f.size

/-- One press of the submit button, with the values the two external calls
would produce supplied as oracles: `extractResult` is what `input_pdf_text`
returns (`none` after a PDF read error) and `modelResponse` is what
`evaluate_resume` returns (`none` after a model error). -/
structure SubmitInput where
  uploaded : Option UploadedFile
  jd : String
  extractResult : Option String
  modelResponse : Option String

/-- Embeds `check_resume_format` as the handler actually calls it: the handler
passes the extraction result without checking it for `None`, and the
function's first action `resume_text.split()` raises `AttributeError` on
`None`. -/
def pyCheckResumeFormat : Option String → Except PyExc (Bool × List String)
  | none => .error (.attributeError "NoneType object has no attribute split")
  | some t => .ok (check_resume_format t)

/-- Embeds the submit handler (lines 175–240). The second component records
whether `evaluate_resume` — the sole path to the model client — was invoked.
An empty-string model response is falsy in Python, so it takes the
`Resume evaluation failed` branch just like `None`. -/
def submitFlow (inp : SubmitInput) : Outcome × Bool :=
  match inp.uploaded with
  | none => (.noUpload, false)
  | some _ =>
    match pyCheckResumeFormat inp.extractResult with
    | .error e => (.crash e, false)
    | .ok (ats_friendly, feedback) =>
      if ats_friendly then
        match inp.modelResponse with
        | none => (.modelFailed, true)
        | some raw =>
          if raw = "" then (.modelFailed, true)
          else (runInterpreter inp.jd raw, true)
      else (.formatRejected feedback, false)

/-! ## Spec-side definitions for the percentage-conversion claim

The specification describes the conversion as stripping a trailing percent
sign and converting the remainder to an integer; the code removes every
percent sign. The following definitions state the specification's version so
the two can be compared. -/

/-- The specification's conversion step: remove one trailing percent sign if
present. -/
def stripTrailingPct (s : String) : String :=
  match s.data.reverse with
  | [] => s
  | c :: rest => if c = '%' then ⟨rest.reverse⟩ else s

/-- The specification's value of a percentage field: the integer value of the
string after stripping a trailing percent sign. -/
def specPctValue (s : String) : Option Int :=
  pyIntOfStrChars (stripTrailingPct s).data

/-- A percentage string is well formed when the specification's conversion
succeeds. -/
def wfPctStr (s : String) : Prop :=
  (specPctValue s).isSome

/-! ## Concrete inputs used by witnesses and failing-input theorems -/

/-- A 200-word resume text containing the keyword `skills`; it passes both
format-checker rules. -/
def acceptableText : String :=
  String.intercalate " " (List.replicate 200 "skills")

/-- A 50-word resume text (all words contain `skills`, so only the word-count
rule fires). -/
def shortText : String :=
  String.intercalate " " (List.replicate 50 "skills")

/-- A submit press on which the PDF library failed: `input_pdf_text` returned
`None` after showing its error message. -/
def failedExtractionInput : SubmitInput :=
  { uploaded := some ⟨1000, "resume.pdf"⟩, jd := "", extractResult := none,
    modelResponse := some "irrelevant" }

/-- A file one byte over the 2 MB limit. -/
def oversizedFile : UploadedFile :=
  ⟨2 * 1024 * 1024 + 1, "big.pdf"⟩

/-- A submit press with the oversized file still selected: the handler only
checks that a file is present. -/
def oversizedInput : SubmitInput :=
  { uploaded := some oversizedFile, jd := "", extractResult := some acceptableText,
    modelResponse := none }

/-- A submit press whose extracted text fails the word-count rule. -/
def shortTextInput : SubmitInput :=
  { uploaded := some ⟨1000, "resume.pdf"⟩, jd := "any role", extractResult := some shortText,
    modelResponse := some "irrelevant" }

/-! ## Theorems -/

/-- C5: the Prompt Builder is a pure, deterministic function of the pair
(jobDescription, resumeText): a non-empty job description yields exactly the
two-line template, an empty one yields exactly the resume-only template, and
identical input pairs always yield identical prompt strings. -/
theorem c5_prompt_builder (jd r jd2 r2 : String) :
    (jd ≠ "" → buildPrompt jd r = "Job Description: " ++ jd ++ "\n" ++ "Resume Text: " ++ r) ∧
    (jd = "" → buildPrompt jd r = "Resume Text: " ++ r) ∧
    (jd = jd2 → r = r2 → buildPrompt jd r = buildPrompt jd2 r2) := by
  refine ⟨fun h => ?_, fun h => ?_, fun h1 h2 => ?_⟩
  · simp [buildPrompt, h]
  · simp [buildPrompt, h]
  · rw [h1, h2]

/-- Witness for C5 at a concrete pair with a non-empty job description. -/
theorem c5_prompt_builder_witness :
    buildPrompt "Data Engineer" "my resume" =
      "Job Description: Data Engineer" ++ "\n" ++ "Resume Text: my resume" :=
  (c5_prompt_builder "Data Engineer" "my resume" "" "").1 (by decide)

/-- C3: on the job-description path the eligibility band chain is total over
the integers 0–100 and each integer falls into exactly one band, with the
inclusive boundaries 0–30, 31–60, 61–80 and 81–100. -/
theorem c3_eligibility_bands (p : Int) (h0 : 0 ≤ p) (h1 : p ≤ 100) :
    (∃ b, eligibilityBand p = some b) ∧
    (eligibilityBand p = some .notEligible ↔ p ≤ 30) ∧
    (eligibilityBand p = some .needsUpdate ↔ 31 ≤ p ∧ p ≤ 60) ∧
    (eligibilityBand p = some .goodNeedsUpdate ↔ 61 ≤ p ∧ p ≤ 80) ∧
    (eligibilityBand p = some .perfectFit ↔ 81 ≤ p ∧ p ≤ 100) := by
  unfold eligibilityBand
  split_ifs <;>
    first
      | (refine ⟨⟨_, rfl⟩, ?_, ?_, ?_, ?_⟩ <;> simp <;> omega)
      | (exfalso; omega)

/-- Witness for C3 at percentage 75, which lies in the third band. -/
theorem c3_eligibility_bands_witness :
    eligibilityBand 75 = some .goodNeedsUpdate :=
  ((c3_eligibility_bands 75 (by decide) (by decide)).2.2.2.1).mpr (by decide)

/-- C7: the gauge color chain is total over the integers 0–100 and each
integer falls into exactly one color band, with the bands at most 40, 41–60,
61–80, 81–90 and above 90. -/
theorem c7_gauge_colors (p : Int) (h0 : 0 ≤ p) (h1 : p ≤ 100) :
    (gaugeColor p = .darkred ↔ p ≤ 40) ∧
    (gaugeColor p = .lightcoral ↔ 41 ≤ p ∧ p ≤ 60) ∧
    (gaugeColor p = .orange ↔ 61 ≤ p ∧ p ≤ 80) ∧
    (gaugeColor p = .lightgreen ↔ 81 ≤ p ∧ p ≤ 90) ∧
    (gaugeColor p = .darkgreen ↔ 91 ≤ p) := by
  unfold gaugeColor
  split_ifs <;> refine ⟨?_, ?_, ?_, ?_, ?_⟩ <;> simp <;> omega

/-- Witness for C7 at percentage 82, which draws light green. -/
theorem c7_gauge_colors_witness :
    gaugeColor 82 = .lightgreen :=
  ((c7_gauge_colors 82 (by decide) (by decide)).2.2.2.1).mpr (by decide)

/-- C1: the Format Checker returns an unacceptable flag exactly when the word
count is below 200 (with the too-short reason then present) or none of the
case-insensitive section keywords occurs in the text (with the
missing-sections reason then present); any text with at least 200 words
containing at least one keyword is accepted. -/
theorem c1_format_checker_rules (t : String) :
    ((check_resume_format t).1 = false ↔
      (wordCount t < 200 ∨ (sectionKeywords.any fun k => strIn k (lowerStr t)) = false)) ∧
    (wordCount t < 200 → tooShortMsg ∈ (check_resume_format t).2) ∧
    ((sectionKeywords.any fun k => strIn k (lowerStr t)) = false →
      missingSectionsMsg ∈ (check_resume_format t).2) ∧
    (200 ≤ wordCount t → (sectionKeywords.any fun k => strIn k (lowerStr t)) = true →
      (check_resume_format t).1 = true) := by
  by_cases hs : wordCount t < 200 <;>
    by_cases hn : (sectionKeywords.any fun k => strIn k (lowerStr t)) = true <;>
      simp [check_resume_format, hs, hn]

set_option maxRecDepth 40000 in
/-- Witness for C1: the 200-word keyword-bearing text is accepted. -/
theorem c1_format_checker_rules_witness :
    (check_resume_format acceptableText).1 = true :=
  (c1_format_checker_rules acceptableText).2.2.2 (by decide) (by decide)

/-- C10: for every input text the returned flag is true exactly when the
reasons list is empty, the list has at most two entries, and when both
reasons appear the too-short reason comes first. -/
theorem c10_format_checker_invariant (t : String) :
    ((check_resume_format t).1 = true ↔ (check_resume_format t).2 = []) ∧
    (check_resume_format t).2.length ≤ 2 ∧
    ((check_resume_format t).2 = [] ∨ (check_resume_format t).2 = [tooShortMsg] ∨
      (check_resume_format t).2 = [missingSectionsMsg] ∨
      (check_resume_format t).2 = [tooShortMsg, missingSectionsMsg]) := by
  by_cases hs : wordCount t < 200 <;>
    by_cases hn : (sectionKeywords.any fun k => strIn k (lowerStr t)) = true <;>
      simp [check_resume_format, hs, hn]

/-- Witness for C10 at the empty text, where both rules fire in order. -/
theorem c10_format_checker_invariant_witness :
    ((check_resume_format "").1 = true ↔ (check_resume_format "").2 = []) ∧
    (check_resume_format "").2.length ≤ 2 ∧
    ((check_resume_format "").2 = [] ∨ (check_resume_format "").2 = [tooShortMsg] ∨
      (check_resume_format "").2 = [missingSectionsMsg] ∨
      (check_resume_format "").2 = [tooShortMsg, missingSectionsMsg]) :=
  c10_format_checker_invariant ""

/-- C6: whenever the Format Checker rejects the extracted text, the submit
handler reports the itemized reasons and the model client is never invoked
(the second component of `submitFlow` records whether `evaluate_resume`, the
sole path to the network call, ran). -/
theorem c6_format_gate_blocks_model (inp : SubmitInput) (f : UploadedFile) (t : String)
    (hu : inp.uploaded = some f) (he : inp.extractResult = some t)
    (hf : (check_resume_format t).1 = false) :
    submitFlow inp = (.formatRejected (check_resume_format t).2, false) := by
  unfold submitFlow
  rw [hu, he]
  simp only [pyCheckResumeFormat]
  rw [hf]
  simp

set_option maxRecDepth 40000 in
/-- Witness for C6: a 50-word resume with a job description is rejected by
the format checker and the model is not called. -/
theorem c6_format_gate_blocks_model_witness :
    submitFlow shortTextInput = (.formatRejected (check_resume_format shortText).2, false) :=
  c6_format_gate_blocks_model shortTextInput ⟨1000, "resume.pdf"⟩ shortText rfl rfl (by decide)

/-- C8 (failing input): when `input_pdf_text` fails and returns `None`, the
submit handler does not abort; it passes the `None` on to
`check_resume_format`, whose `resume_text.split()` raises an uncaught
`AttributeError`, so the press ends in a crash rather than a clean abort
(the model is at least never invoked). -/
theorem c8_extraction_failure_not_aborted :
    submitFlow failedExtractionInput =
      (.crash (.attributeError "NoneType object has no attribute split"), false) := rfl

set_option maxRecDepth 40000 in
/-- C9 (failing input): the upload preview stage reports the 2 MB size error
for the oversized file, yet the submit handler — which only checks that a
file is present — still runs the full evaluation on it, invoking the model
client (second component `true`). -/
theorem c9_size_limit_not_enforced_on_submit :
    uploadStageSizeError oversizedFile = true ∧
    submitFlow oversizedInput = (.modelFailed, true) := by
  constructor
  · rfl
  · rfl

/-- Every character of a string accepted by `intLitCore` is a digit or a
sign. -/
theorem intLitCore_chars {ds : List Char} {n : Int} (h : intLitCore ds = some n) :
    ∀ c ∈ ds, c.isDigit = true ∨ c = '-' ∨ c = '+' := by
  intro c hc
  cases ds with
  | nil => simp [intLitCore] at h
  | cons d rest =>
    simp only [intLitCore] at h
    rcases List.mem_cons.mp hc with rfl | hcr
    · split_ifs at h with h1 h2 h3 h4 h5
      · exact Or.inr (Or.inl h1)
      · exact Or.inr (Or.inr h3)
      · exact Or.inl (List.all_eq_true.mp h5 c (List.mem_cons_self _ _))
    · split_ifs at h with h1 h2 h3 h4 h5
      · exact Or.inl (List.all_eq_true.mp h2.1 c hcr)
      · exact Or.inl (List.all_eq_true.mp h4.1 c hcr)
      · exact Or.inl (List.all_eq_true.mp h5 c (List.mem_cons_of_mem _ hcr))

/-- A member surviving the predicate survives `dropWhile`. -/
theorem mem_dropWhile_of_neg {c : Char} {p : Char → Bool} {cs : List Char}
    (hc : c ∈ cs) (hp : p c = false) : c ∈ cs.dropWhile p := by
  have hsplit := List.takeWhile_append_dropWhile (p := p) (l := cs)
  rw [← hsplit] at hc
  rcases List.mem_append.mp hc with h | h
  · have := List.mem_takeWhile_imp h
    rw [hp] at this
    exact absurd this (by simp)
  · exact h

/-- A non-whitespace member of a list survives `trimWs`. -/
theorem mem_trimWs {c : Char} {cs : List Char} (hc : c ∈ cs)
    (hw : isPyWs c = false) : c ∈ trimWs cs := by
  unfold trimWs
  rw [List.mem_reverse]
  exact mem_dropWhile_of_neg (List.mem_reverse.mpr (mem_dropWhile_of_neg hc hw)) hw

/-- A string whose `int` conversion succeeds contains no percent sign. -/
theorem no_pct_of_pyInt {cs : List Char} {n : Int}
    (h : pyIntOfStrChars cs = some n) : '%' ∉ cs := by
  intro hmem
  have h1 : '%' ∈ trimWs cs := mem_trimWs hmem (by decide)
  have h2 := intLitCore_chars h '%' h1
  simp at h2

/-- Removing percent signs from a string whose `int` conversion succeeds
changes nothing. -/
theorem filter_pct_of_pyInt {cs : List Char} {n : Int}
    (h : pyIntOfStrChars cs = some n) : cs.filter (· != '%') = cs := by
  refine List.filter_eq_self.mpr fun a ha => ?_
  have : a ≠ '%' := fun he => no_pct_of_pyInt h (he ▸ ha)
  simpa using this

/-- When the specification's conversion (strip one trailing percent sign,
then `int`) succeeds, removing every percent sign — what the code's
`.replace("%", "")` call does — produces exactly the stripped string. -/
theorem filter_eq_strip_of_spec {s : String} {n : Int}
    (h : specPctValue s = some n) :
    s.data.filter (· != '%') = (stripTrailingPct s).data := by
  unfold specPctValue at h
  unfold stripTrailingPct at h ⊢
  rcases hrev : s.data.reverse with _ | ⟨c, t⟩ <;> rw [hrev] at h <;> dsimp only at h ⊢
  · exact filter_pct_of_pyInt h
  · split_ifs at h ⊢ with hc
    · subst hc
      have hs : s.data = t.reverse ++ ['%'] := by
        simpa using congrArg List.reverse hrev
      rw [hs, List.filter_append, filter_pct_of_pyInt h]
      simp
    · exact filter_pct_of_pyInt h

/-- C4: on every well-formed percentage field (one whose value is a string
accepted by the specification's strip-one-trailing-percent-then-int
conversion) the code's `.replace("%", "")` conversion yields exactly the
specification's value; an absent field defaults to 0; and the concrete
response with JD Match "75%" yields 75, selecting the third band. -/
theorem c4_percentage_conversion :
    (∀ s n kvs, specPctValue s = some n →
      List.lookup "JD Match" kvs = some (.str s) →
      jdMatchPercent (.obj kvs) = .ok n) ∧
    (∀ kvs : List (String × Json), List.lookup "JD Match" kvs = none →
      jdMatchPercent (.obj kvs) = .ok 0) ∧
    jdMatchPercent (.obj [("JD Match", .str "75%")]) = .ok 75 ∧
    eligibilityBand 75 = some .goodNeedsUpdate := by
  refine ⟨?_, ?_, rfl, by decide⟩
  · intro s n kvs hs hk
    have hfilter := filter_eq_strip_of_spec hs
    have hval : pyIntOfStrChars (stripTrailingPct s).data = some n := hs
    have hget : pyDictGet (.obj kvs) "JD Match" (.str "0") = .ok (.str s) := by
      simp [pyDictGet, hk]
    unfold jdMatchPercent
    rw [hget]
    show pyInt (Json.str ⟨s.data.filter (· != '%')⟩) = Except.ok n
    have hv : pyIntOfStrChars (String.mk (s.data.filter (· != '%'))).data = some n := by
      show pyIntOfStrChars (s.data.filter (· != '%')) = some n
      rw [hfilter]
      exact hval
    simp [pyInt, hv]
  · intro kvs hk
    have hget : pyDictGet (.obj kvs) "JD Match" (.str "0") = .ok (.str "0") := by
      simp [pyDictGet, hk]
    unfold jdMatchPercent
    rw [hget]
    rfl

/-- Witness for C4 at the field value "82%" in a one-field response. -/
theorem c4_percentage_conversion_witness :
    jdMatchPercent (.obj [("JD Match", .str "82%")]) = .ok 82 :=
  c4_percentage_conversion.1 "82%" 82 [("JD Match", .str "82%")] (by decide) rfl

/-- C2 counterexample: two raw responses that deviate from the expected
structured shape refute the claim. The valid JSON empty object is silently
interpreted with a defaulted percentage of 0 instead of signalling a parse
error, and the valid JSON response whose JD Match field is a number crashes
with an uncaught `AttributeError` instead of a reported parse error. -/
theorem c2_parse_error_counterexample :
    runInterpreter "python developer" "\x7b\x7d" =
      .jdResult ⟨0, .darkred, some .notEligible, "No keywords are missing. Great job!"⟩ ∧
    runInterpreter "python developer" "\x7b\"JD Match\": 75\x7d" =
      .crash (.attributeError "object has no attribute replace") :=
  ⟨rfl, rfl⟩

/-- C2 (amended): only failures of `json.loads` itself are signalled as parse
errors and reported to the user, and on such inputs the handler never
crashes; a successfully parsed response is never reported as a parse error —
instead missing expected fields are silently defaulted and wrongly-typed
fields raise an uncaught exception, as the two concrete conjuncts show. -/
theorem c2_amended_parse_error_handling :
    (∀ jd raw e, json_loads raw = .error e → runInterpreter jd raw = .parseFailed e) ∧
    (∀ jd raw v, json_loads raw = .ok v → ∀ m, runInterpreter jd raw ≠ .parseFailed m) ∧
    runInterpreter "backend role" "\x7b\"Suggestions\": \"add metrics\"\x7d" =
      .jdResult ⟨0, .darkred, some .notEligible, "No keywords are missing. Great job!"⟩ ∧
    runInterpreter "backend role" "\x7b\"JD Match\": null\x7d" =
      .crash (.attributeError "object has no attribute replace") := by
  refine ⟨?_, ?_, rfl, rfl⟩
  · intro jd raw e h
    unfold runInterpreter
    rw [h]
  · intro jd raw v h m
    unfold runInterpreter
    rw [h]
    dsimp only
    split_ifs
    · cases interpretJd v <;> simp
    · cases interpretAts v <;> simp

/-- Witness for C2 (amended) at a plain non-JSON response, which is reported
as a parse error. -/
theorem c2_amended_parse_error_handling_witness :
    runInterpreter "backend role" "plain text, not a structured response" =
      .parseFailed "expecting value" :=
  c2_amended_parse_error_handling.1 "backend role"
    "plain text, not a structured response" "expecting value" rfl
